import Mathlib

/-!
Verification of the `/submit` and `/` handlers of the single-endpoint
ingestion service (`src/api/app.py`, with `src/api/deps.py`).

The request handler `submit` is a linear pipeline of guard clauses over a
parsed JSON body.  We embed JSON values, Python truthiness, `dict.get`,
Python `==` between a JSON value and a `str`, `json.dumps` (default
settings), and the handler itself as a pure function of the per-request
results of its three effectful collaborators (body parsing, SSM secret
lookup, SQS `send_message`).  The handler's observable behaviour — the
returned body/status or an escaping exception, whether the secret lookup
ran, and the exact `MessageBody` string handed to `send_message` — is the
output record.

`datetime.fromisoformat` is external library code; its acceptance set on
*strings* is abstracted as a predicate `iso : String → Bool` (the code
only branches on success/failure of the parse).  Its behaviour on
non-string arguments is concrete and matters: it raises `TypeError`,
which the handler's `except ValueError` clause does not catch.
-/

/-- JSON values as produced by `request.get_json`.  Numbers are modelled
as integers; none of the verified properties depend on non-integral
numerics, only on truthiness (`0` falsy, everything else truthy), which
integers capture.  Objects are key/value lists in document order. -/
inductive Json where
  | null : Json
  | bool : Bool → Json
  | num : Int → Json
  | str : String → Json
  | arr : List Json → Json
  | obj : List (String × Json) → Json

/-- Python truthiness of a JSON value: `None`, `False`, `0`, `""`, `[]`
and `\x7b\x7d` are falsy, everything else truthy. -/
def Json.truthy : Json → Bool
  | .null => false
  | .bool b => b
  | .num n => n != 0
  | .str s => s ≠ ""
  | .arr xs => !xs.isEmpty
  | .obj kvs => !kvs.isEmpty

/-- `d.get(k)` on a Python dict built by the JSON parser: with duplicate
keys the last binding wins; absent key gives `None` (here `none`). -/
def dictGet (kvs : List (String × Json)) (k : String) : Option Json :=
  kvs.foldl (fun acc kv => if kv.1 = k then some kv.2 else acc) none

/-- Truthiness of `d.get(k)`: `None` (absent key) is falsy. -/
def optTruthy : Option Json → Bool
  | none => false
  | some v => v.truthy

/-- Python `==` between a value taken from parsed JSON and a `str`
(`token == expected_token`): only a `str` of equal content compares
equal; every non-string JSON value is unequal to any string. -/
def jsonEqStr : Option Json → String → Bool
  | some (.str t), s => t = s
  | _, _ => false

/-- One character of `json.dumps` default string escaping
(`ensure_ascii=True`): `"` and `\` get a backslash, the named control
escapes are used for `\b \t \n \f \r`, other chars below `0x20` and all
chars above `0x7e` become `\uXXXX` (astral chars become surrogate
pairs). -/
def hexDigit (n : Nat) : Char :=
  if n < 10 then Char.ofNat (48 + n) else Char.ofNat (87 + n)

/-- Four-digit lowercase hex of `n % 0x10000`, as in `\uXXXX`. -/
def hex4 (n : Nat) : String :=
  String.mk [hexDigit (n / 4096 % 16), hexDigit (n / 256 % 16),
             hexDigit (n / 16 % 16), hexDigit (n % 16)]

def escapeChar (c : Char) : String :=
  if c = '"' then "\\\""
  else if c = '\\' then "\\\\"
  else if c = Char.ofNat 8 then "\\b"
  else if c = Char.ofNat 9 then "\\t"
  else if c = Char.ofNat 10 then "\\n"
  else if c = Char.ofNat 12 then "\\f"
  else if c = Char.ofNat 13 then "\\r"
  else if c.toNat < 32 ∨ c.toNat > 126 then
    if c.toNat ≥ 65536 then
      "\\u" ++ hex4 (55296 + (c.toNat - 65536) / 1024)
        ++ "\\u" ++ hex4 (56320 + (c.toNat - 65536) % 1024)
    else "\\u" ++ hex4 c.toNat
  else String.singleton c

/-- `json.dumps` of a Python string with default settings. -/
def dumpStr (s : String) : String :=
  "\"" ++ String.join (s.toList.map escapeChar) ++ "\""

mutual

/-- `json.dumps(v)` with default settings: item separator `", "`, key
separator `": "`, keys in dict (insertion) order. -/
def Json.dumps : Json → String
  | .null => "null"
  | .bool true => "true"
  | .bool false => "false"
  | .num n => toString n
  | .str s => dumpStr s
  | .arr xs => "[" ++ dumpsitems xs ++ "]"
  | .obj kvs => "\x7b" ++ dumpsfields kvs ++ "\x7d"

/-- Comma-separated serialization of array items. -/
def dumpsitems : List Json → String
  | [] => ""
  | [v] => Json.dumps v
  | v :: rest => Json.dumps v ++ ", " ++ dumpsitems rest

/-- Comma-separated serialization of object members. -/
def dumpsfields : List (String × Json) → String
  | [] => ""
  | [kv] => dumpStr kv.1 ++ ": " ++ Json.dumps kv.2
  | kv :: rest => dumpStr kv.1 ++ ": " ++ Json.dumps kv.2 ++ ", " ++ dumpsfields rest

end

/-- The one Python exception that can escape `submit`: `TypeError` from
`datetime.fromisoformat` when handed a non-`str` argument (the handler
catches only `ValueError` around that call). -/
inductive PyExn where
  | typeError : PyExn

/-- What a call to `submit` does at the HTTP boundary: either it returns
a `(body, status)` pair, or an exception escapes the handler. -/
inductive SubmitResult where
  | response : Json → Nat → SubmitResult
  | raised : PyExn → SubmitResult

/-- Per-request results of the three effectful collaborators of
`submit`, each `Except Unit` mirroring raise-or-return:
`getJson` is `request.get_json(force=True)`, `ssm` is
`get_token_from_ssm(TOKEN_SSM_PARAM)` (any internal failure of
`deps.get_token_from_ssm` — client error, missing key, non-string value
— is re-raised there, so one error case covers all of them), and `sqs`
is `sqs.send_message`, whose success value is the optional `MessageId`
of the response dict. -/
structure Deps where
  getJson : Except Unit Json
  ssm : Except Unit String
  sqs : Except Unit (Option String)

/-- Observable behaviour of one `submit` call: the HTTP result, whether
the SSM lookup was invoked, the `MessageBody` string passed to
`sqs.send_message` if it was invoked, and the `message_id` local bound
(and logged) on enqueue success. -/
structure HandleOutput where
  result : SubmitResult
  ssmCalled : Bool
  sentBody : Option String
  loggedMessageId : Option String

/-- A `\x7b"error": msg\x7d` response body. -/
def errorBody (msg : String) : Json := .obj [("error", .str msg)]

/-- The success response body of `/submit`. -/
def acceptedBody : Json := .obj [("message", .str "Payload accepted and queued.")]

/-- `message_id = response.get("MessageId", "unknown")`. -/
def messageIdOf (mid : Option String) : String := mid.getD "unknown"

/-- The `/submit` handler of `src/api/app.py`, as a function of the
ISO-8601 acceptance set `iso` of `datetime.fromisoformat` on strings and
the per-request collaborator results `d`.  Faithful transcription:

* the `try` around `request.get_json(force=True)` also contains
  `list(data.keys())`, so a body whose JSON top level is not an object
  raises `AttributeError` inside that `try` and yields the
  `"Invalid JSON payload"` 400 response, like a syntax error;
* `data.get("token")` / `data.get("email_timestream")` then the
  truthiness test `if not token or not timestream`;
* SSM lookup failure → `"Internal server error"` 500;
* `token != expected_token` → `"Invalid token"` 403 (a non-`str` token
  is never equal to the `str` secret);
* `datetime.fromisoformat(timestream)`: a non-`str` argument raises
  `TypeError`, which the `except ValueError` clause does not catch, so
  it escapes; a `str` outside `iso` raises `ValueError` →
  `"Invalid timestream format"` 400;
* `sqs.send_message(QueueUrl=SQS_URL, MessageBody=json.dumps(data))`:
  failure → `"Failed to queue message"` 500; success → 200 with
  `message_id` bound to the response's `MessageId` or `"unknown"`. -/
def submit (iso : String → Bool) (d : Deps) : HandleOutput :=
  match d.getJson with
  | .error _ => ⟨.response (errorBody "Invalid JSON payload") 400, false, none, none⟩
  | .ok data =>
    match data with
    | .obj kvs =>
      let token := dictGet kvs "token"
      let timestream := dictGet kvs "email_timestream"
      if !optTruthy token || !optTruthy timestream then
        ⟨.response (errorBody "Missing token or email_timestream") 400, false, none, none⟩
      else
        match d.ssm with
        | .error _ => ⟨.response (errorBody "Internal server error") 500, true, none, none⟩
        | .ok expected_token =>
          if !jsonEqStr token expected_token then
            ⟨.response (errorBody "Invalid token") 403, true, none, none⟩
          else
            match timestream with
            | some (.str s) =>
              if iso s then
                match d.sqs with
                | .error _ =>
                  ⟨.response (errorBody "Failed to queue message") 500, true,
                    some (Json.dumps data), none⟩
                | .ok mid =>
                  ⟨.response acceptedBody 200, true,
                    some (Json.dumps data), some (messageIdOf mid)⟩
              else
                ⟨.response (errorBody "Invalid timestream format") 400, true, none, none⟩
            | _ => ⟨.raised .typeError, true, none, none⟩
    | _ => ⟨.response (errorBody "Invalid JSON payload") 400, false, none, none⟩

/-- The `/` health endpoint of `src/api/app.py`; the argument stands for
one invocation, of which the result is independent. -/
def health_check (_ : Unit) : Json × Nat :=
  (Json.obj [("status", .str "healthy"),
             ("service", .str "checkpoint-home-assignment-api-ms"),
             ("endpoints", .arr [.str "/submit"])], 200)

/-- C1: a payload parsing to a JSON object whose `token` is a non-empty
string equal to the retrieved secret and whose `email_timestream` is a
string accepted by the ISO-8601 parser (which rejects the empty string)
is Accepted with 200 and the queued `MessageBody` is `json.dumps` of the
entire original parsed payload, extra fields included, unchanged. -/
theorem submit_accepts_and_forwards_verbatim
    (iso : String → Bool) (d : Deps) (kvs : List (String × Json))
    (secret ts : String) (mid : Option String)
    (hparse : d.getJson = .ok (.obj kvs))
    (htok : dictGet kvs "token" = some (.str secret))
    (hne : secret ≠ "")
    (hts : dictGet kvs "email_timestream" = some (.str ts))
    (hiso : iso ts = true)
    (hempty : iso "" = false)
    (hssm : d.ssm = .ok secret)
    (hsqs : d.sqs = .ok mid) :
    (submit iso d).result = .response acceptedBody 200 ∧
    (submit iso d).sentBody = some (Json.dumps (.obj kvs)) := by
  have hts' : ts ≠ "" := by
    intro h
    rw [h, hempty] at hiso
    exact Bool.noConfusion hiso
  simp [submit, hparse, htok, hts, hssm, hsqs, hiso, optTruthy, Json.truthy,
    jsonEqStr, hne, hts']

/-- C1 witness: the literal success scenario of the spec. -/
theorem submit_accepts_and_forwards_verbatim_witness :
    (submit (fun s => s = "2024-06-01T12:00:00")
      ⟨.ok (.obj [("token", .str "correct-token"),
                  ("email_timestream", .str "2024-06-01T12:00:00"),
                  ("extra", .num 7)]),
       .ok "correct-token", .ok (some "123")⟩).result
      = .response acceptedBody 200 ∧
    (submit (fun s => s = "2024-06-01T12:00:00")
      ⟨.ok (.obj [("token", .str "correct-token"),
                  ("email_timestream", .str "2024-06-01T12:00:00"),
                  ("extra", .num 7)]),
       .ok "correct-token", .ok (some "123")⟩).sentBody
      = some (Json.dumps (.obj [("token", .str "correct-token"),
                  ("email_timestream", .str "2024-06-01T12:00:00"),
                  ("extra", .num 7)])) :=
  submit_accepts_and_forwards_verbatim _ _ _ "correct-token" "2024-06-01T12:00:00"
    (some "123") rfl rfl (by decide) rfl (by decide) (by decide) rfl rfl

/-- C2: a payload passing the truthiness presence check whose `token` is
not string-equal to the successfully retrieved secret is rejected 403
`\x7b"error": "Invalid token"\x7d`, whatever `email_timestream` holds and
whatever the ISO parser accepts. -/
theorem submit_rejects_wrong_token
    (iso : String → Bool) (d : Deps) (kvs : List (String × Json)) (secret : String)
    (hparse : d.getJson = .ok (.obj kvs))
    (htok : optTruthy (dictGet kvs "token") = true)
    (hts : optTruthy (dictGet kvs "email_timestream") = true)
    (hssm : d.ssm = .ok secret)
    (hneq : jsonEqStr (dictGet kvs "token") secret = false) :
    (submit iso d).result = .response (errorBody "Invalid token") 403 := by
  simp [submit, hparse, htok, hts, hssm, hneq]

/-- C2 witness: wrong token with an unparseable timestamp still gets 403. -/
theorem submit_rejects_wrong_token_witness :
    (submit (fun _ => false)
      ⟨.ok (.obj [("token", .str "wrong-token"),
                  ("email_timestream", .str "not-a-timestamp")]),
       .ok "correct-token", .ok (some "123")⟩).result
      = .response (errorBody "Invalid token") 403 :=
  submit_rejects_wrong_token _ _ _ "correct-token" rfl (by decide) (by decide) rfl
    (by decide)

/-- C3 counterexample: with a matching token and `email_timestream`
bound to the JSON value `true` — not a parseable ISO-8601 date-time —
the handler does not return the 400 `"Invalid timestream format"`
response: `datetime.fromisoformat(True)` raises `TypeError`, which the
`except ValueError` clause does not catch. -/
theorem submit_nonstring_timestream_not_400 :
    (submit (fun _ => true)
      ⟨.ok (.obj [("token", .str "s3cr3t"), ("email_timestream", .bool true)]),
       .ok "s3cr3t", .ok (some "id-1")⟩).result
      = .raised .typeError ∧
    (submit (fun _ => true)
      ⟨.ok (.obj [("token", .str "s3cr3t"), ("email_timestream", .bool true)]),
       .ok "s3cr3t", .ok (some "id-1")⟩).result
      ≠ .response (errorBody "Invalid timestream format") 400 := by
  constructor
  · rfl
  · intro h
    rw [show (submit (fun _ => true)
      ⟨.ok (.obj [("token", .str "s3cr3t"), ("email_timestream", .bool true)]),
       .ok "s3cr3t", .ok (some "id-1")⟩).result = .raised .typeError from rfl] at h
    exact SubmitResult.noConfusion h

/-- Helper: Python `==` against a `str` succeeds only for that exact
string value. -/
theorem jsonEqStr_eq_true (o : Option Json) (s : String)
    (h : jsonEqStr o s = true) : o = some (.str s) := by
  match o with
  | none => exact Bool.noConfusion h
  | some (.str t) =>
    simp only [jsonEqStr, decide_eq_true_eq] at h
    rw [h]
  | some .null => exact Bool.noConfusion h
  | some (.bool b) => exact Bool.noConfusion h
  | some (.num n) => exact Bool.noConfusion h
  | some (.arr xs) => exact Bool.noConfusion h
  | some (.obj kvs) => exact Bool.noConfusion h

/-- C3 amended: for every *string* `email_timestream` that the ISO-8601
parser rejects, when the presence check passes and the supplied token
equals the retrieved secret, the handler returns 400
`\x7b"error": "Invalid timestream format"\x7d`; every `ValueError` of the
parse lands here (a truthy non-string value instead raises an uncaught
`TypeError`). -/
theorem submit_rejects_bad_timestream_string
    (iso : String → Bool) (d : Deps) (kvs : List (String × Json))
    (secret ts : String)
    (hparse : d.getJson = .ok (.obj kvs))
    (htok : optTruthy (dictGet kvs "token") = true)
    (hts : dictGet kvs "email_timestream" = some (.str ts))
    (htsne : ts ≠ "")
    (hssm : d.ssm = .ok secret)
    (heq : jsonEqStr (dictGet kvs "token") secret = true)
    (hiso : iso ts = false) :
    (submit iso d).result = .response (errorBody "Invalid timestream format") 400 := by
  have htokv := jsonEqStr_eq_true _ _ heq
  rw [htokv] at htok
  have hsec : secret ≠ "" := by simpa [optTruthy, Json.truthy] using htok
  simp [submit, hparse, hts, hssm, jsonEqStr, hiso, optTruthy, Json.truthy, htsne,
    htokv, hsec]

/-- C3 witness: the literal bad-timestamp scenario of the spec. -/
theorem submit_rejects_bad_timestream_string_witness :
    (submit (fun s => s = "2024-06-01T12:00:00")
      ⟨.ok (.obj [("token", .str "correct-token"),
                  ("email_timestream", .str "not-a-timestamp")]),
       .ok "correct-token", .ok (some "123")⟩).result
      = .response (errorBody "Invalid timestream format") 400 :=
  submit_rejects_bad_timestream_string _ _ _ "correct-token" "not-a-timestamp" rfl
    (by decide) rfl (by decide) rfl (by decide) (by decide)

/-- C4: evaluation at the failing input — a payload whose `token`
matches the secret and whose `email_timestream` is the JSON number `5`
(truthy, non-string) makes a `TypeError` escape the handler instead of
being converted to a structured JSON error outcome. -/
theorem submit_exception_escapes_handler :
    (submit (fun _ => true)
      ⟨.ok (.obj [("token", .str "s3cr3t"), ("email_timestream", .num 5)]),
       .ok "s3cr3t", .ok (some "id-1")⟩).result
      = .raised .typeError := rfl

/-- C5: a body whose JSON does not parse, or parses to a top-level value
that is not an object (array, string, number, boolean or null), is
rejected 400 `\x7b"error": "Invalid JSON payload"\x7d`. -/
theorem submit_rejects_non_object_body
    (iso : String → Bool) (d : Deps)
    (h : d.getJson = .error () ∨
         ∃ j, d.getJson = .ok j ∧ ∀ kvs, j ≠ .obj kvs) :
    (submit iso d).result = .response (errorBody "Invalid JSON payload") 400 := by
  rcases h with h | ⟨j, hj, hobj⟩
  · simp [submit, h]
  · cases j with
    | obj kvs => exact absurd rfl (hobj kvs)
    | null => simp [submit, hj]
    | bool b => simp [submit, hj]
    | num n => simp [submit, hj]
    | str s => simp [submit, hj]
    | arr xs => simp [submit, hj]

/-- C5 witness: a top-level JSON array is rejected as invalid JSON. -/
theorem submit_rejects_non_object_body_witness :
    (submit (fun _ => true)
      ⟨.ok (.arr [.num 1, .num 2]), .ok "s3cr3t", .ok (some "id-1")⟩).result
      = .response (errorBody "Invalid JSON payload") 400 :=
  submit_rejects_non_object_body _ _
    (Or.inr ⟨.arr [.num 1, .num 2], rfl, fun _ h => Json.noConfusion h⟩)

/-- C6: a payload that parses to a JSON object but is missing the
`token` key, the `email_timestream` key, or both — or where either value
is the empty string — is rejected 400
`\x7b"error": "Missing token or email_timestream"\x7d`, with neither the
secret lookup nor the enqueue capability called. -/
theorem submit_rejects_missing_fields
    (iso : String → Bool) (d : Deps) (kvs : List (String × Json))
    (hparse : d.getJson = .ok (.obj kvs))
    (h : dictGet kvs "token" = none ∨ dictGet kvs "token" = some (.str "") ∨
         dictGet kvs "email_timestream" = none ∨
         dictGet kvs "email_timestream" = some (.str "")) :
    (submit iso d).result
      = .response (errorBody "Missing token or email_timestream") 400 ∧
    (submit iso d).ssmCalled = false ∧ (submit iso d).sentBody = none := by
  have hfalsy : optTruthy (dictGet kvs "token") = false ∨
      optTruthy (dictGet kvs "email_timestream") = false := by
    rcases h with h | h | h | h
    · exact Or.inl (by simp [h, optTruthy])
    · exact Or.inl (by simp [h, optTruthy, Json.truthy])
    · exact Or.inr (by simp [h, optTruthy])
    · exact Or.inr (by simp [h, optTruthy, Json.truthy])
  rcases hfalsy with h | h <;> simp [submit, hparse, h]

/-- C6 witness: a payload with only `email_timestream` present. -/
theorem submit_rejects_missing_fields_witness :
    (submit (fun _ => true)
      ⟨.ok (.obj [("email_timestream", .str "2024-06-01T12:00:00")]),
       .ok "s3cr3t", .ok (some "id-1")⟩).result
      = .response (errorBody "Missing token or email_timestream") 400 ∧
    (submit (fun _ => true)
      ⟨.ok (.obj [("email_timestream", .str "2024-06-01T12:00:00")]),
       .ok "s3cr3t", .ok (some "id-1")⟩).ssmCalled = false ∧
    (submit (fun _ => true)
      ⟨.ok (.obj [("email_timestream", .str "2024-06-01T12:00:00")]),
       .ok "s3cr3t", .ok (some "id-1")⟩).sentBody = none :=
  submit_rejects_missing_fields _ _ _ rfl (Or.inl rfl)

/-- C7: when the presence check passes and the secret lookup fails (for
any reason), the handler returns 500
`\x7b"error": "Internal server error"\x7d` and `send_message` is never
called. -/
theorem submit_ssm_failure_internal_error
    (iso : String → Bool) (d : Deps) (kvs : List (String × Json))
    (hparse : d.getJson = .ok (.obj kvs))
    (htok : optTruthy (dictGet kvs "token") = true)
    (hts : optTruthy (dictGet kvs "email_timestream") = true)
    (hssm : d.ssm = .error ()) :
    (submit iso d).result = .response (errorBody "Internal server error") 500 ∧
    (submit iso d).sentBody = none := by
  simp [submit, hparse, htok, hts, hssm]

/-- C7 witness: the literal lookup-failure scenario of the spec. -/
theorem submit_ssm_failure_internal_error_witness :
    (submit (fun _ => true)
      ⟨.ok (.obj [("token", .str "correct-token"),
                  ("email_timestream", .str "2024-06-01T12:00:00")]),
       .error (), .ok (some "123")⟩).result
      = .response (errorBody "Internal server error") 500 ∧
    (submit (fun _ => true)
      ⟨.ok (.obj [("token", .str "correct-token"),
                  ("email_timestream", .str "2024-06-01T12:00:00")]),
       .error (), .ok (some "123")⟩).sentBody = none :=
  submit_ssm_failure_internal_error _ _ _ rfl (by decide) (by decide) rfl

/-- C8: with every validation step passed, a failing enqueue yields 500
`\x7b"error": "Failed to queue message"\x7d`, and an enqueue that succeeds
without a `MessageId` binds the sentinel `"unknown"` as the message id
while the request is still Accepted with 200. -/
theorem submit_enqueue_failure_and_sentinel
    (iso : String → Bool) (d : Deps) (kvs : List (String × Json))
    (secret ts : String)
    (hparse : d.getJson = .ok (.obj kvs))
    (htok : dictGet kvs "token" = some (.str secret))
    (hne : secret ≠ "")
    (hts : dictGet kvs "email_timestream" = some (.str ts))
    (htsne : ts ≠ "")
    (hiso : iso ts = true)
    (hssm : d.ssm = .ok secret) :
    (d.sqs = .error () →
      (submit iso d).result = .response (errorBody "Failed to queue message") 500) ∧
    (d.sqs = .ok none →
      (submit iso d).result = .response acceptedBody 200 ∧
      (submit iso d).loggedMessageId = some "unknown") := by
  constructor
  · intro hsqs
    simp [submit, hparse, htok, hts, hssm, hsqs, hiso, optTruthy, Json.truthy,
      jsonEqStr, hne, htsne]
  · intro hsqs
    simp [submit, hparse, htok, hts, hssm, hsqs, hiso, optTruthy, Json.truthy,
      jsonEqStr, hne, htsne, messageIdOf]

/-- C8 witness: enqueue succeeds without a `MessageId`; the request is
Accepted and `"unknown"` is substituted. -/
theorem submit_enqueue_failure_and_sentinel_witness :
    (submit (fun s => s = "2024-06-01T12:00:00")
      ⟨.ok (.obj [("token", .str "correct-token"),
                  ("email_timestream", .str "2024-06-01T12:00:00")]),
       .ok "correct-token", .ok none⟩).result
      = .response acceptedBody 200 ∧
    (submit (fun s => s = "2024-06-01T12:00:00")
      ⟨.ok (.obj [("token", .str "correct-token"),
                  ("email_timestream", .str "2024-06-01T12:00:00")]),
       .ok "correct-token", .ok none⟩).loggedMessageId = some "unknown" :=
  (submit_enqueue_failure_and_sentinel _ _
    [("token", .str "correct-token"),
     ("email_timestream", .str "2024-06-01T12:00:00")]
    "correct-token" "2024-06-01T12:00:00"
    rfl rfl (by decide) rfl (by decide) (by decide) rfl).2 rfl

/-- C9: every call of the health endpoint returns the same fixed
structure — status `"healthy"`, the service name, the endpoint list —
with code 200, independent of anything, so repeated calls agree. -/
theorem health_check_constant (u : Unit) :
    health_check u
      = (Json.obj [("status", .str "healthy"),
                   ("service", .str "checkpoint-home-assignment-api-ms"),
                   ("endpoints", .arr [.str "/submit"])], 200) ∧
    health_check u = health_check () :=
  ⟨rfl, rfl⟩

/-- C10: a payload object in which `token` or `email_timestream` is
present but bound to a falsy JSON value — `""`, `0`, `false`, `null`,
`[]` or `\x7b\x7d` — is rejected exactly like one with the key absent:
400 `\x7b"error": "Missing token or email_timestream"\x7d`, not an auth
or format error. -/
theorem submit_falsy_field_is_missing
    (iso : String → Bool) (d : Deps) (kvs : List (String × Json)) (v : Json)
    (hparse : d.getJson = .ok (.obj kvs))
    (hv : v = .str "" ∨ v = .num 0 ∨ v = .bool false ∨ v = .null ∨
          v = .arr [] ∨ v = .obj [])
    (h : dictGet kvs "token" = some v ∨ dictGet kvs "email_timestream" = some v) :
    (submit iso d).result
      = .response (errorBody "Missing token or email_timestream") 400 := by
  have hfalsy : v.truthy = false := by
    rcases hv with hv | hv | hv | hv | hv | hv <;> simp [hv, Json.truthy]
  rcases h with h | h
  · simp [submit, hparse, h, optTruthy, hfalsy]
  · simp [submit, hparse, h, optTruthy, hfalsy]

/-- C10 witness: `token` present but bound to `0`. -/
theorem submit_falsy_field_is_missing_witness :
    (submit (fun _ => true)
      ⟨.ok (.obj [("token", .num 0),
                  ("email_timestream", .str "2024-06-01T12:00:00")]),
       .ok "s3cr3t", .ok (some "id-1")⟩).result
      = .response (errorBody "Missing token or email_timestream") 400 :=
  submit_falsy_field_is_missing _ _ _ (.num 0) rfl (Or.inr (Or.inl rfl)) (Or.inl rfl)
